import Mathlib

set_option maxHeartbeats 1000000

/-!
Shallow embedding of the transaction-retry layer of the `database` Go
package (`database.go`): error classification, the single transactional
attempt, and the retry loop, together with an event trace recording the
interactions with the driver collaborator (connection acquisition and
release, transaction begin/commit/rollback, work invocation, backoff
sleeps).
-/

namespace DatabaseGo

/-- The isolation levels of Go's `database/sql` package
(`sql.IsolationLevel`). -/
inductive IsolationLevel
  | default
  | readUncommitted
  | readCommitted
  | writeCommitted
  | repeatableRead
  | snapshot
  | serializable
  | linearizable
deriving DecidableEq

/-- `sql.TxOptions`. -/
structure TxOptions where
  isolation : IsolationLevel
  readOnly : Bool
deriving DecidableEq

/-- Go error values as this package builds and inspects them:
the two structured driver error shapes (`*pq.Error` with its `Code`
field and `*pgconn.PgError` with its `Code` field), a plain
`fmt.Errorf`/`errors.New` error carrying only a message, and a
`fmt.Errorf("...: %w", cause)` wrapper whose message is the rendered
prefix followed by the cause's message.  The structured shapes carry
their rendered message separately from their SQLSTATE code. -/
inductive GoError
  | pq (code : String) (msg : String)
  | pgconn (code : String) (msg : String)
  | errorf (msg : String)
  | wrap (pre : String) (cause : GoError)
deriving DecidableEq

/-- `err.Error()`: the rendered message of an error; a `%w` wrapper
renders its prefix followed by the cause's message. -/
def errString : GoError → String
  | .pq _ m => m
  | .pgconn _ m => m
  | .errorf m => m
  | .wrap p c => p ++ errString c

/-- The unwrap chain of an error: the error itself followed by the
chain of its cause, as traversed by `errors.As`/`errors.Unwrap`.
Structured driver errors and plain errors are chain terminals. -/
def errChain : GoError → List GoError
  | .pq c m => [.pq c m]
  | .pgconn c m => [.pgconn c m]
  | .errorf m => [.errorf m]
  | .wrap p c => .wrap p c :: errChain c

/-- `errors.As(err, &perr)` for `perr *pq.Error`: the code of the first
`*pq.Error` in the unwrap chain, if any. -/
def asPqCode : GoError → Option String
  | .pq c _ => some c
  | .wrap _ c => asPqCode c
  | _ => none

/-- `errors.As(err, &gerr)` for `gerr *pgconn.PgError`: the code of the
first `*pgconn.PgError` in the unwrap chain, if any. -/
def asPgconnCode : GoError → Option String
  | .pgconn c _ => some c
  | .wrap _ c => asPgconnCode c
  | _ => none

/-- `const serializationFailureCode = "40001"`. -/
def serializationFailureCode : String := "40001"

/-- `isSerializationFailure` from `database.go`: true when
`errors.As` finds a `*pq.Error` whose `Code` is `40001`, or a
`*pgconn.PgError` whose `Code` is `40001`; `none` models a nil error. -/
def isSerializationFailure : Option GoError → Bool
  | none => false
  | some e =>
    (match asPqCode e with
     | some c => c == serializationFailureCode
     | none => false) ||
    (match asPgconnCode e with
     | some c => c == serializationFailureCode
     | none => false)

/-- Whether `pat` is a leading segment of `s` (character lists). -/
def leadsWith : List Char → List Char → Bool
  | [], _ => true
  | _ :: _, [] => false
  | a :: as, b :: bs => a == b && leadsWith as bs

/-- Whether `pat` occurs contiguously anywhere in the second list. -/
def occursIn (pat : List Char) : List Char → Bool
  | [] => leadsWith pat []
  | c :: rest => leadsWith pat (c :: rest) || occursIn pat rest

/-- `strings.Contains(s, pat)`. -/
def strContains (s pat : String) : Bool := occursIn pat.data s.data

/-- The `DB` handle of `database.go`: the shared pool (identified by a
number), the optional active transaction, the optional bound
connection, and the transaction options it was opened with. -/
structure DB where
  db : Nat
  tx : Option Nat
  conn : Option Nat
  txOptions : TxOptions
deriving DecidableEq

/-- The object a `BeginTx` call is issued on: the pool (`db.db.BeginTx`)
or a specific acquired connection (`conn.BeginTx`). -/
inductive BeginTarget
  | onPool
  | onConn (connId : Nat)
deriving DecidableEq

/-- Observable interactions of one `Transaction` call with the driver
collaborator, in order of occurrence. -/
inductive Event
  | acquireConn (connId : Nat)
  | releaseConn (connId : Nat)
  | beginTx (target : BeginTarget) (opts : TxOptions) (txId : Nat)
  | invokeWork (handle : DB)
  | commitTx (txId : Nat)
  | rollbackTx (txId : Nat)
  | logCommitError (e : GoError)
  | sleep (ms : Nat)
deriving DecidableEq

/-- The driver collaborator's responses during one attempt: the result
of `db.db.Conn` (with the id of the connection handed out on success),
the result of `BeginTx` (with the id of the transaction on success),
and the result of `tx.Commit`. -/
structure AttemptEnv where
  connErr : Option GoError
  connId : Nat
  beginErr : Option GoError
  txId : Nat
  commitErr : Option GoError
deriving DecidableEq

/-- What one invocation of the unit-of-work function `f` does: return
nil, return an error, or panic. -/
inductive WorkOutcome
  | ok
  | fail (e : GoError)
  | fault
deriving DecidableEq

/-- How a call ends: a normal return carrying an optional error, or a
propagating panic. -/
inductive Outcome
  | ret (e : Option GoError)
  | fault
deriving DecidableEq

/-- One attempt: the `transaction` method of `database.go`.  Rejects a
handle that already has an active transaction; acquires a connection
via `db.db.Conn` (released by `defer conn.Close()` on every later exit
path); begins the transaction with `db.db.BeginTx` — on the pool
object, as written in the source; invokes `f` with a freshly
constructed transaction-scoped handle.  The deferred block rolls back
and re-panics on a panic; otherwise it consults the function-scope
`err`, which is necessarily nil by then — the work error is bound by
`if err := f(dbtx)` to a new, shadowing variable — so the
rollback-on-error branch is dead code and the block commits on the
work-error path as well as on success, logging a commit failure, while
the function returns the wrapped work error or nil.  Returns the
outcome, the event trace, and the receiver handle as the call leaves
it. -/
def transaction (db : DB) (opts : TxOptions) (env : AttemptEnv) (w : WorkOutcome) :
    Outcome × List Event × DB :=
  if db.tx.isSome then
    (.ret (some (.errorf "There is already a transaction in progress")), [], db)
  else
    match env.connErr with
    | some e => (.ret (some (.wrap "db.Conn(): " e)), [], db)
    | none =>
      match env.beginErr with
      | some e =>
        (.ret (some (.wrap "db.BeginTx(): " e)),
         [.acquireConn env.connId, .releaseConn env.connId], db)
      | none =>
        let dbtx : DB :=
          { db := db.db, tx := some env.txId, conn := some env.connId, txOptions := opts }
        match w with
        | .fault =>
          (.fault,
           [.acquireConn env.connId, .beginTx .onPool opts env.txId, .invokeWork dbtx,
            .rollbackTx env.txId, .releaseConn env.connId], db)
        | .fail e =>
          match env.commitErr with
          | some ce =>
            (.ret (some (.wrap "call f(): " e)),
             [.acquireConn env.connId, .beginTx .onPool opts env.txId, .invokeWork dbtx,
              .commitTx env.txId, .logCommitError ce, .releaseConn env.connId], db)
          | none =>
            (.ret (some (.wrap "call f(): " e)),
             [.acquireConn env.connId, .beginTx .onPool opts env.txId, .invokeWork dbtx,
              .commitTx env.txId, .releaseConn env.connId], db)
        | .ok =>
          match env.commitErr with
          | some ce =>
            (.ret none,
             [.acquireConn env.connId, .beginTx .onPool opts env.txId, .invokeWork dbtx,
              .commitTx env.txId, .logCommitError ce, .releaseConn env.connId], db)
          | none =>
            (.ret none,
             [.acquireConn env.connId, .beginTx .onPool opts env.txId, .invokeWork dbtx,
              .commitTx env.txId, .releaseConn env.connId], db)

/-- `canRetry` from `database.go`. -/
def canRetry (iso : IsolationLevel) : Bool :=
  iso == .repeatableRead || iso == .serializable

/-- The retry loop of `transactionWithRetry`: `i` is the loop counter,
the fuel is `maxRetries - i`, `dur` the current backoff.  On a
serialization failure it sleeps for `dur`, doubles `dur` and retries;
on any other non-nil error whose message contains `40001` it returns a
bare `serialization failure` error; otherwise it returns the attempt's
result.  Exhausted fuel returns the `exceeded max retries` error.
The environment `env` and the work behaviour `w` are indexed by the
attempt number. -/
def retryLoop (opts : TxOptions) (env : Nat → AttemptEnv) (w : Nat → WorkOutcome) :
    DB → Nat → Nat → Nat → Outcome × List Event × DB
  | db, _, 0, _ => (.ret (some (.errorf "exceeded max retries")), [], db)
  | db, i, fuel + 1, dur =>
    match transaction db opts (env i) (w i) with
    | (.fault, tr, db1) => (.fault, tr, db1)
    | (.ret err, tr, db1) =>
      if isSerializationFailure err then
        match retryLoop opts env w db1 (i + 1) fuel (dur * 2) with
        | (r, tr', db2) => (r, tr ++ .sleep dur :: tr', db2)
      else
        match err with
        | some e =>
          if strContains (errString e) serializationFailureCode then
            (.ret (some (.errorf "serialization failure")), tr, db1)
          else
            (.ret (some e), tr, db1)
        | none => (.ret none, tr, db1)

/-- `transactionWithRetry` from `database.go`: `maxRetries = 3`,
initial backoff 150 milliseconds. -/
def transactionWithRetry (db : DB) (opts : TxOptions)
    (env : Nat → AttemptEnv) (w : Nat → WorkOutcome) : Outcome × List Event × DB :=
  retryLoop opts env w db 0 3 150

/-- The public `Transaction` method of `database.go`: retry-eligible
isolation levels go through `transactionWithRetry`, the rest run one
bare attempt. -/
def Transaction (db : DB) (opts : TxOptions)
    (env : Nat → AttemptEnv) (w : Nat → WorkOutcome) : Outcome × List Event × DB :=
  if canRetry opts.isolation then transactionWithRetry db opts env w
  else transaction db opts (env 0) (w 0)

/-- Number of work-function invocations recorded in a trace. -/
def countInvoke : List Event → Nat
  | [] => 0
  | .invokeWork _ :: tr => countInvoke tr + 1
  | _ :: tr => countInvoke tr

/-- Number of commit calls recorded in a trace. -/
def countCommit : List Event → Nat
  | [] => 0
  | .commitTx _ :: tr => countCommit tr + 1
  | _ :: tr => countCommit tr

/-- Number of rollback calls recorded in a trace. -/
def countRollback : List Event → Nat
  | [] => 0
  | .rollbackTx _ :: tr => countRollback tr + 1
  | _ :: tr => countRollback tr

/-- Number of pool-connection acquisitions recorded in a trace. -/
def countAcquire : List Event → Nat
  | [] => 0
  | .acquireConn _ :: tr => countAcquire tr + 1
  | _ :: tr => countAcquire tr

/-- Number of connection releases recorded in a trace. -/
def countRelease : List Event → Nat
  | [] => 0
  | .releaseConn _ :: tr => countRelease tr + 1
  | _ :: tr => countRelease tr

/-- The backoff sleeps of a trace, in order, in milliseconds. -/
def sleepDurs : List Event → List Nat
  | [] => []
  | .sleep d :: tr => d :: sleepDurs tr
  | _ :: tr => sleepDurs tr

/-- Whether some `BeginTx` in the trace is issued on an acquired
connection. -/
def hasBeginOnConn : List Event → Bool
  | [] => false
  | .beginTx (.onConn _) _ _ :: _ => true
  | _ :: tr => hasBeginOnConn tr

/-- Whether some `BeginTx` in the trace is issued on the pool object. -/
def hasBeginOnPool : List Event → Bool
  | [] => false
  | .beginTx .onPool _ _ :: _ => true
  | _ :: tr => hasBeginOnPool tr

/-- The spec's wording of serialization-failure classification: the
error chain contains one of the two structured driver error shapes
whose code equals `40001`. -/
def specChainHasSerializationCode (e : GoError) : Bool :=
  (errChain e).any fun x =>
    match x with
    | .pq c _ => c == serializationFailureCode
    | .pgconn c _ => c == serializationFailureCode
    | _ => false

/-- A pool-bound handle used for concrete evaluations. -/
def db0 : DB :=
  { db := 7, tx := none, conn := none,
    txOptions := { isolation := .default, readOnly := false } }

/-- Serializable-isolation options used for concrete evaluations. -/
def opts0 : TxOptions := { isolation := .serializable, readOnly := false }

/-- A fault-free driver environment for one attempt. -/
def happyEnv : AttemptEnv :=
  { connErr := none, connId := 1, beginErr := none, txId := 2, commitErr := none }

/-- A fault-free driver environment for every attempt, with distinct
connection and transaction ids per attempt. -/
def happyEnvF : Nat → AttemptEnv := fun i =>
  { connErr := none, connId := 2 * i + 1, beginErr := none, txId := 2 * i + 2,
    commitErr := none }

/-- A structured serialization-failure error (pq shape). -/
def serErr : GoError :=
  .pq "40001" "pq: could not serialize access due to concurrent update"

/-- A plain error whose message merely mentions the SQLSTATE. -/
def subErr : GoError :=
  .errorf "ERROR: could not serialize access (SQLSTATE 40001)"

/-- Read-committed options used for concrete evaluations. -/
def optsRC : TxOptions := { isolation := .readCommitted, readOnly := false }

/-- A handle that already has an active transaction. -/
def dbInTx : DB :=
  { db := 7, tx := some 5, conn := some 1,
    txOptions := { isolation := .default, readOnly := false } }

/-- A commit-failure error used for concrete evaluations. -/
def comErr : GoError := .errorf "driver: bad connection"

/-- A business error unrelated to serialization. -/
def bizErr : GoError := .errorf "insufficient funds"

/-- A driver environment whose commits fail with `comErr`. -/
def commitFailEnvF : Nat → AttemptEnv := fun i =>
  { connErr := none, connId := 2 * i + 1, beginErr := none, txId := 2 * i + 2,
    commitErr := some comErr }

/-- A work behaviour that reports `serErr` on the first attempt and
then succeeds. -/
def workFailOnce : Nat → WorkOutcome := fun i => if i = 0 then .fail serErr else .ok

/-- A work behaviour that reports `serErr` on every attempt. -/
def workSerAlways : Nat → WorkOutcome := fun _ => .fail serErr

/-- A work behaviour that always succeeds. -/
def workOkF : Nat → WorkOutcome := fun _ => .ok

/-! ## Helper lemmas -/

/-- A `%w` wrapper classifies as a serialization failure exactly when
its cause does: `errors.As` looks through the wrapper. -/
lemma isSer_wrap (p : String) (e : GoError) :
    isSerializationFailure (some (.wrap p e)) = isSerializationFailure (some e) := rfl

/-- A nil error is never a serialization failure. -/
lemma isSer_none : isSerializationFailure none = false := rfl

/-- The concrete structured error `serErr` classifies as a
serialization failure. -/
lemma serErr_isSer : isSerializationFailure (some serErr) = true := by decide

/-- Every error is a member of its own unwrap chain. -/
lemma self_mem_errChain (e : GoError) : e ∈ errChain e := by
  cases e <;> simp [errChain]

/-- A pattern starting with a character different from the head of the
scanned list occurs in the tail exactly when it occurs in the list. -/
lemma occursIn_cons_ne (p0 : Char) (pt : List Char) (c : Char) (s : List Char)
    (h : (p0 == c) = false) :
    occursIn (p0 :: pt) (c :: s) = occursIn (p0 :: pt) s := by
  simp [occursIn, leadsWith, h]

/-- Prepending characters none of which equals the pattern's first
character does not change whether the pattern occurs. -/
lemma occursIn_append_ne (p0 : Char) (pt : List Char) (pre s : List Char)
    (h : ∀ c ∈ pre, (p0 == c) = false) :
    occursIn (p0 :: pt) (pre ++ s) = occursIn (p0 :: pt) s := by
  induction pre with
  | nil => rfl
  | cons c rest ih =>
    rw [List.cons_append, occursIn_cons_ne p0 pt c (rest ++ s) (h c (by simp))]
    exact ih fun x hx => h x (by simp [hx])

/-- The wrapping prefix of a work error contains no digit `4`, so the
substring check for `40001` sees through it. -/
lemma strContains_callf (e : GoError) :
    strContains (errString (.wrap "call f(): " e)) serializationFailureCode =
      strContains (errString e) serializationFailureCode := by
  show occursIn serializationFailureCode.data ("call f(): " ++ errString e).data =
    occursIn serializationFailureCode.data (errString e).data
  have hdata : ("call f(): " ++ errString e).data = "call f(): ".data ++ (errString e).data :=
    rfl
  have hpat : serializationFailureCode.data = '4' :: ['0', '0', '0', '1'] := rfl
  rw [hdata, hpat]
  exact occursIn_append_ne '4' ['0', '0', '0', '1'] "call f(): ".data (errString e).data
    (by decide)

/-- `transaction` never alters the caller's handle. -/
lemma transaction_snd (db : DB) (opts : TxOptions) (env : AttemptEnv) (w : WorkOutcome) :
    (transaction db opts env w).2.2 = db := by
  rcases db with ⟨d, tx, conn, topts⟩
  rcases env with ⟨ce, ci, be, ti, cme⟩
  rcases tx <;> rcases ce <;> rcases be <;> rcases w <;> rcases cme <;> rfl

/-- Any work invocation recorded by `transaction` happened on a handle
with no prior active transaction, and received the freshly constructed
transaction-scoped handle. -/
lemma transaction_invoke (db : DB) (opts : TxOptions) (env : AttemptEnv) (w : WorkOutcome)
    (h : DB) (hmem : Event.invokeWork h ∈ (transaction db opts env w).2.1) :
    db.tx = none ∧
    h = { db := db.db, tx := some env.txId, conn := some env.connId, txOptions := opts } := by
  rcases db with ⟨d, tx, conn, topts⟩
  rcases env with ⟨ce, ci, be, ti, cme⟩
  rcases tx <;> rcases ce <;> rcases be <;> rcases w <;> rcases cme <;>
    simp_all [transaction]

/-- `transaction` invokes the work function at most once. -/
lemma transaction_countInvoke_le (db : DB) (opts : TxOptions) (env : AttemptEnv)
    (w : WorkOutcome) : countInvoke (transaction db opts env w).2.1 ≤ 1 := by
  rcases db with ⟨d, tx, conn, topts⟩
  rcases env with ⟨ce, ci, be, ti, cme⟩
  rcases tx <;> rcases ce <;> rcases be <;> rcases w <;> rcases cme <;>
    simp [transaction, countInvoke]

/-- A single attempt never sleeps. -/
lemma transaction_sleepDurs (db : DB) (opts : TxOptions) (env : AttemptEnv)
    (w : WorkOutcome) : sleepDurs (transaction db opts env w).2.1 = [] := by
  rcases db with ⟨d, tx, conn, topts⟩
  rcases env with ⟨ce, ci, be, ti, cme⟩
  rcases tx <;> rcases ce <;> rcases be <;> rcases w <;> rcases cme <;>
    simp [transaction, sleepDurs]

/-- The retry loop never alters the caller's handle. -/
lemma retryLoop_snd (opts : TxOptions) (env : Nat → AttemptEnv) (w : Nat → WorkOutcome) :
    ∀ (fuel : Nat) (db : DB) (i dur : Nat),
      (retryLoop opts env w db i fuel dur).2.2 = db := by
  intro fuel
  induction fuel with
  | zero => intro db i dur; rfl
  | succ n ih =>
    intro db i dur
    rcases htr : transaction db opts (env i) (w i) with ⟨r, tr, db1⟩
    have hdb1 : db1 = db := by
      have := transaction_snd db opts (env i) (w i)
      rw [htr] at this
      exact this
    subst hdb1
    rcases r with err | _
    · rcases hrec : retryLoop opts env w db1 (i + 1) n (dur * 2) with ⟨r2, tr2, db2⟩
      have hdb2 : db2 = db1 := by
        have := ih db1 (i + 1) (dur * 2)
        rw [hrec] at this
        exact this
      subst hdb2
      simp only [retryLoop, htr, hrec]
      split
      · rfl
      · rcases err with _ | e
        · rfl
        · simp only []
          split <;> rfl
    · simp only [retryLoop, htr]

/-- Any work invocation recorded by the retry loop happened on a
caller handle without an active transaction and received a freshly
constructed transaction-scoped handle (built from some attempt's
connection and transaction ids). -/
lemma retryLoop_invoke (opts : TxOptions) (env : Nat → AttemptEnv) (w : Nat → WorkOutcome) :
    ∀ (fuel : Nat) (db : DB) (i dur : Nat) (h : DB),
      Event.invokeWork h ∈ (retryLoop opts env w db i fuel dur).2.1 →
      db.tx = none ∧ ∃ j, h =
        { db := db.db, tx := some (env j).txId, conn := some (env j).connId,
          txOptions := opts } := by
  intro fuel
  induction fuel with
  | zero => intro db i dur h hmem; simp [retryLoop] at hmem
  | succ n ih =>
    intro db i dur h hmem
    rcases htr : transaction db opts (env i) (w i) with ⟨r, tr, db1⟩
    have hdb1 : db1 = db := by
      have := transaction_snd db opts (env i) (w i)
      rw [htr] at this
      exact this
    rw [hdb1] at htr
    have hattempt : Event.invokeWork h ∈ tr →
        db.tx = none ∧ ∃ j, h =
          { db := db.db, tx := some (env j).txId, conn := some (env j).connId,
            txOptions := opts } := by
      intro hm
      have := transaction_invoke db opts (env i) (w i) h (by rw [htr]; exact hm)
      exact ⟨this.1, i, this.2⟩
    rcases r with err | _
    · rcases hrec : retryLoop opts env w db (i + 1) n (dur * 2) with ⟨r2, tr2, db2⟩
      simp only [retryLoop, htr, hrec] at hmem
      by_cases hser : isSerializationFailure err = true
      · simp only [hser, if_true] at hmem
        simp only [List.mem_append, List.mem_cons] at hmem
        rcases hmem with hm | hm | hm
        · exact hattempt hm
        · exact absurd hm (by simp)
        · exact ih db (i + 1) (dur * 2) h (by rw [hrec]; exact hm)
      · rw [if_neg hser] at hmem
        rcases err with _ | e
        · exact hattempt hmem
        · simp only [] at hmem
          by_cases hsub :
              strContains (errString e) serializationFailureCode = true
          · rw [if_pos hsub] at hmem
            exact hattempt hmem
          · rw [if_neg hsub] at hmem
            exact hattempt hmem
    · simp only [retryLoop, htr] at hmem
      exact hattempt hmem

/-! ## Claims -/

/-- C9: `isSerializationFailure` returns true exactly when the error's
unwrap chain contains one of the two structured driver error shapes
(`pq.Error` or `pgconn.PgError`) whose code equals `40001`; an error
with any other code or with no structured shape is not classified, and
a nil error is never classified. -/
theorem C9_serialization_classification (e : GoError) :
    isSerializationFailure (some e) = specChainHasSerializationCode e ∧
    isSerializationFailure none = false := by
  constructor
  · induction e with
    | pq c m =>
      simp [isSerializationFailure, asPqCode, asPgconnCode,
        specChainHasSerializationCode, errChain]
    | pgconn c m =>
      simp [isSerializationFailure, asPqCode, asPgconnCode,
        specChainHasSerializationCode, errChain]
    | errorf m =>
      simp [isSerializationFailure, asPqCode, asPgconnCode,
        specChainHasSerializationCode, errChain]
    | wrap p c ih =>
      rw [isSer_wrap, ih]
      simp [specChainHasSerializationCode, errChain]
  · rfl

/-- C5: `canRetry` holds exactly for repeatable-read and serializable,
and for any non-eligible isolation level `Transaction` performs a
single bare attempt (it equals one `transaction` call), invoking the
work function at most once and never sleeping, regardless of the work
function's behaviour. -/
theorem C5_retry_policy :
    (∀ iso : IsolationLevel,
      canRetry iso = true ↔ iso = .repeatableRead ∨ iso = .serializable) ∧
    ∀ (db : DB) (opts : TxOptions) (env : Nat → AttemptEnv) (w : Nat → WorkOutcome),
      canRetry opts.isolation = false →
      Transaction db opts env w = transaction db opts (env 0) (w 0) ∧
      countInvoke (Transaction db opts env w).2.1 ≤ 1 ∧
      sleepDurs (Transaction db opts env w).2.1 = [] := by
  constructor
  · intro iso; cases iso <;> decide
  · intro db opts env w hno
    have htx : Transaction db opts env w = transaction db opts (env 0) (w 0) := by
      simp [Transaction, hno]
    refine ⟨htx, ?_, ?_⟩
    · rw [htx]; exact transaction_countInvoke_le db opts (env 0) (w 0)
    · rw [htx]; exact transaction_sleepDurs db opts (env 0) (w 0)

/-- Witness for C5: at read-committed isolation with a work function
that always reports a structured serialization failure, `Transaction`
is one bare attempt. -/
theorem C5_retry_policy_witness :
    canRetry optsRC.isolation = false ∧
    Transaction db0 optsRC happyEnvF workSerAlways =
      transaction db0 optsRC (happyEnvF 0) (workSerAlways 0) :=
  ⟨by decide,
   (C5_retry_policy.2 db0 optsRC happyEnvF workSerAlways (by decide)).1⟩

/-- C7: on a handle that already has an active transaction,
`Transaction` always returns the nesting error with an empty trace —
the work function is never invoked and no connection is acquired —
for every isolation level and every driver behaviour. -/
theorem C7_nested_transaction_rejected (db : DB) (t : Nat) (opts : TxOptions)
    (env : Nat → AttemptEnv) (w : Nat → WorkOutcome) (hdb : db.tx = some t) :
    Transaction db opts env w =
      (.ret (some (.errorf "There is already a transaction in progress")), [], db) ∧
    countInvoke (Transaction db opts env w).2.1 = 0 ∧
    countAcquire (Transaction db opts env w).2.1 = 0 := by
  have hne : isSerializationFailure
      (some (.errorf "There is already a transaction in progress")) = false := by decide
  have hnc : strContains
      (errString (.errorf "There is already a transaction in progress"))
      serializationFailureCode = false := by decide
  have key : Transaction db opts env w =
      (.ret (some (.errorf "There is already a transaction in progress")), [], db) := by
    cases hcr : canRetry opts.isolation
    · simp [Transaction, hcr, transaction, hdb]
    · simp [Transaction, hcr, transactionWithRetry, retryLoop, transaction, hdb, hne, hnc]
  refine ⟨key, ?_, ?_⟩ <;> rw [key] <;> rfl

/-- Witness for C7: a handle holding transaction 5 is rejected. -/
theorem C7_nested_transaction_rejected_witness :
    Transaction dbInTx opts0 happyEnvF workOkF =
      (.ret (some (.errorf "There is already a transaction in progress")), [], dbInTx) :=
  (C7_nested_transaction_rejected dbInTx 5 opts0 happyEnvF workOkF rfl).1

/-- C2 evaluated at its failing input (no active transaction, driver
accepts the connection and the begin, work succeeds): the code acquires
exactly one connection and releases it, but the `BeginTx` it issues is
on the pool object (`db.db.BeginTx`), not on the acquired connection —
no begin in the trace targets the acquired connection. -/
theorem C2_begin_on_pool :
    hasBeginOnPool (transaction db0 opts0 happyEnv .ok).2.1 = true ∧
    hasBeginOnConn (transaction db0 opts0 happyEnv .ok).2.1 = false ∧
    countAcquire (transaction db0 opts0 happyEnv .ok).2.1 = 1 ∧
    countRelease (transaction db0 opts0 happyEnv .ok).2.1 = 1 ∧
    (transaction db0 opts0 happyEnv .ok).1 = .ret none := by decide

/-- C3 counterexample: a plain error whose message merely contains
`40001` makes the retry loop return the bare `serialization failure`
error, whose unwrap chain contains neither the original error nor its
wrapped form — the underlying error is not reachable. -/
theorem C3_counterexample :
    (Transaction db0 opts0 happyEnvF fun _ => .fail subErr).1 =
      .ret (some (.errorf "serialization failure")) ∧
    subErr ∉ errChain (.errorf "serialization failure") ∧
    GoError.wrap "call f(): " subErr ∉ errChain (.errorf "serialization failure") := by
  decide

/-- C3 (amended): an error that matches no structured driver shape but
whose message contains `40001` causes no retry pass (one work
invocation, no sleep) and an immediate `serialization failure`
labelled error; however that returned error is a fresh error whose
chain retains neither the original error nor its wrapped form. -/
theorem C3_substring_fallback (db : DB) (opts : TxOptions) (env : Nat → AttemptEnv)
    (w : Nat → WorkOutcome) (e : GoError)
    (helig : canRetry opts.isolation = true)
    (hdb : db.tx = none)
    (hc : (env 0).connErr = none) (hb : (env 0).beginErr = none)
    (hw : w 0 = .fail e)
    (hns : isSerializationFailure (some e) = false)
    (hsub : strContains (errString e) serializationFailureCode = true) :
    (Transaction db opts env w).1 = .ret (some (.errorf "serialization failure")) ∧
    countInvoke (Transaction db opts env w).2.1 = 1 ∧
    sleepDurs (Transaction db opts env w).2.1 = [] ∧
    e ∉ errChain (.errorf "serialization failure") ∧
    GoError.wrap "call f(): " e ∉ errChain (.errorf "serialization failure") := by
  have h1 : isSerializationFailure (some (.wrap "call f(): " e)) = false := by
    rw [isSer_wrap]; exact hns
  have h2 : strContains (errString (.wrap "call f(): " e))
      serializationFailureCode = true := by
    rw [strContains_callf]; exact hsub
  have hmain : (Transaction db opts env w).1 =
        .ret (some (.errorf "serialization failure")) ∧
      countInvoke (Transaction db opts env w).2.1 = 1 ∧
      sleepDurs (Transaction db opts env w).2.1 = [] := by
    rcases hm : (env 0).commitErr with _ | ce <;>
      simp [Transaction, helig, transactionWithRetry, retryLoop, transaction, hdb, hc, hb,
        hw, hm, h1, h2, countInvoke, sleepDurs]
  refine ⟨hmain.1, hmain.2.1, hmain.2.2, ?_, ?_⟩
  · intro hmem
    simp [errChain] at hmem
    rw [hmem] at hsub
    exact absurd hsub (by decide)
  · intro hmem
    simp [errChain] at hmem

/-- Witness for C3 (amended): the concrete substring-only error. -/
theorem C3_substring_fallback_witness :
    (Transaction db0 opts0 happyEnvF fun _ => .fail subErr).1 =
      .ret (some (.errorf "serialization failure")) ∧
    countInvoke (Transaction db0 opts0 happyEnvF fun _ => .fail subErr).2.1 = 1 :=
  ⟨(C3_substring_fallback db0 opts0 happyEnvF (fun _ => .fail subErr) subErr
      (by decide) rfl rfl rfl rfl (by decide) (by decide)).1,
   (C3_substring_fallback db0 opts0 happyEnvF (fun _ => .fail subErr) subErr
      (by decide) rfl rfl rfl rfl (by decide) (by decide)).2.1⟩

/-- C1: at a retry-eligible isolation level, with a fault-free driver,
a work function that reports a structured serialization failure on its
first `N - 1` invocations (`N ≤ 3`) and returns nil on invocation `N`
makes `Transaction` return success, invoking the work function exactly
`N` times; in particular a work function that completes without error
(`N = 1`) is invoked once and causes exactly one commit. -/
theorem C1_retry_success (db : DB) (opts : TxOptions) (env : Nat → AttemptEnv)
    (w : Nat → WorkOutcome) (es : Nat → GoError) (N : Nat)
    (helig : opts.isolation = .repeatableRead ∨ opts.isolation = .serializable)
    (hdb : db.tx = none)
    (hc : ∀ i, (env i).connErr = none) (hb : ∀ i, (env i).beginErr = none)
    (hm : ∀ i, (env i).commitErr = none)
    (hN1 : 1 ≤ N) (hN3 : N ≤ 3)
    (hw : ∀ i, i + 1 < N → w i = .fail (es i))
    (hser : ∀ i, i + 1 < N → isSerializationFailure (some (es i)) = true)
    (hok : w (N - 1) = .ok) :
    (Transaction db opts env w).1 = .ret none ∧
    countInvoke (Transaction db opts env w).2.1 = N ∧
    (N = 1 → countCommit (Transaction db opts env w).2.1 = 1) := by
  have hcr : canRetry opts.isolation = true := by
    rcases helig with h | h <;> simp [canRetry, h]
  interval_cases N
  · have h0 : w 0 = .ok := by simpa using hok
    simp [Transaction, hcr, transactionWithRetry, retryLoop, transaction, hdb,
      hc, hb, hm, h0, isSer_none, countInvoke, countCommit]
  · have h0 : w 0 = .fail (es 0) := hw 0 (by omega)
    have hs0 : isSerializationFailure (some (es 0)) = true := hser 0 (by omega)
    have h1 : w 1 = .ok := by simpa using hok
    simp [Transaction, hcr, transactionWithRetry, retryLoop, transaction, hdb,
      hc, hb, hm, h0, h1, isSer_wrap, hs0, isSer_none, countInvoke, countCommit]
  · have h0 : w 0 = .fail (es 0) := hw 0 (by omega)
    have hs0 : isSerializationFailure (some (es 0)) = true := hser 0 (by omega)
    have h1 : w 1 = .fail (es 1) := hw 1 (by omega)
    have hs1 : isSerializationFailure (some (es 1)) = true := hser 1 (by omega)
    have h2 : w 2 = .ok := by simpa using hok
    simp [Transaction, hcr, transactionWithRetry, retryLoop, transaction, hdb,
      hc, hb, hm, h0, h1, h2, isSer_wrap, hs0, hs1, isSer_none, countInvoke, countCommit]

/-- Witness for C1: one serialization failure then success (N = 2) at
serializable isolation with a fault-free driver, plus the N = 1
instance exercising the single-commit clause with an always-succeeding
work function. -/
theorem C1_retry_success_witness :
    ((Transaction db0 opts0 happyEnvF workFailOnce).1 = .ret none ∧
     countInvoke (Transaction db0 opts0 happyEnvF workFailOnce).2.1 = 2) ∧
    ((Transaction db0 opts0 happyEnvF workOkF).1 = .ret none ∧
     countInvoke (Transaction db0 opts0 happyEnvF workOkF).2.1 = 1 ∧
     countCommit (Transaction db0 opts0 happyEnvF workOkF).2.1 = 1) := by
  have h2 := C1_retry_success db0 opts0 happyEnvF workFailOnce (fun _ => serErr) 2
    (Or.inr rfl) rfl (fun _ => rfl) (fun _ => rfl) (fun _ => rfl)
    (by omega) (by omega)
    (fun i hi => by
      have h0 : i = 0 := by omega
      subst h0; rfl)
    (fun _ _ => serErr_isSer)
    rfl
  have h1 := C1_retry_success db0 opts0 happyEnvF workOkF (fun _ => serErr) 1
    (Or.inr rfl) rfl (fun _ => rfl) (fun _ => rfl) (fun _ => rfl)
    (by omega) (by omega)
    (fun i hi => absurd hi (by omega))
    (fun i hi => absurd hi (by omega))
    rfl
  exact ⟨⟨h2.1, h2.2.1⟩, h1.1, h1.2.1, h1.2.2 rfl⟩

/-- C4: when the work function returns nil but the commit fails, the
commit failure is reported through the log (the trace carries the
commit error), the caller still receives the nil result, and no retry
happens: one work invocation, one commit call, no backoff sleep. -/
theorem C4_commit_failure_reported (db : DB) (opts : TxOptions) (env : Nat → AttemptEnv)
    (w : Nat → WorkOutcome) (ce : GoError)
    (hdb : db.tx = none)
    (hc : (env 0).connErr = none) (hb : (env 0).beginErr = none)
    (hm : (env 0).commitErr = some ce)
    (hw : w 0 = .ok) :
    (Transaction db opts env w).1 = .ret none ∧
    Event.logCommitError ce ∈ (Transaction db opts env w).2.1 ∧
    countInvoke (Transaction db opts env w).2.1 = 1 ∧
    countCommit (Transaction db opts env w).2.1 = 1 ∧
    sleepDurs (Transaction db opts env w).2.1 = [] := by
  cases hcr : canRetry opts.isolation <;>
    simp [Transaction, hcr, transactionWithRetry, retryLoop, transaction, hdb, hc, hb,
      hm, hw, isSer_none, countInvoke, countCommit, sleepDurs]

/-- Witness for C4: a failing commit at serializable isolation. -/
theorem C4_commit_failure_reported_witness :
    (Transaction db0 opts0 commitFailEnvF workOkF).1 = .ret none ∧
    Event.logCommitError comErr ∈ (Transaction db0 opts0 commitFailEnvF workOkF).2.1 :=
  ⟨(C4_commit_failure_reported db0 opts0 commitFailEnvF workOkF comErr
      rfl rfl rfl rfl rfl).1,
   (C4_commit_failure_reported db0 opts0 commitFailEnvF workOkF comErr
      rfl rfl rfl rfl rfl).2.1⟩

/-- C6: at a retry-eligible isolation level, with a fault-free driver,
a work function that reports a structured serialization failure on
every invocation makes `Transaction` run exactly 3 attempts with
doubling backoff starting at 150 milliseconds, and return the distinct
`exceeded max retries` error — never any of the raw serialization
errors. -/
theorem C6_retries_exhausted (db : DB) (opts : TxOptions) (env : Nat → AttemptEnv)
    (w : Nat → WorkOutcome) (es : Nat → GoError)
    (helig : opts.isolation = .repeatableRead ∨ opts.isolation = .serializable)
    (hdb : db.tx = none)
    (hc : ∀ i, (env i).connErr = none) (hb : ∀ i, (env i).beginErr = none)
    (hw : ∀ i, w i = .fail (es i))
    (hser : ∀ i, isSerializationFailure (some (es i)) = true) :
    (Transaction db opts env w).1 = .ret (some (.errorf "exceeded max retries")) ∧
    countInvoke (Transaction db opts env w).2.1 = 3 ∧
    sleepDurs (Transaction db opts env w).2.1 = [150, 300, 600] ∧
    ∀ i, (Transaction db opts env w).1 ≠ .ret (some (es i)) := by
  have hcr : canRetry opts.isolation = true := by
    rcases helig with h | h <;> simp [canRetry, h]
  have hmain : (Transaction db opts env w).1 =
        .ret (some (.errorf "exceeded max retries")) ∧
      countInvoke (Transaction db opts env w).2.1 = 3 ∧
      sleepDurs (Transaction db opts env w).2.1 = [150, 300, 600] := by
    rcases hm0 : (env 0).commitErr with _ | ce0 <;>
      rcases hm1 : (env 1).commitErr with _ | ce1 <;>
        rcases hm2 : (env 2).commitErr with _ | ce2 <;>
          simp [Transaction, hcr, transactionWithRetry, retryLoop, transaction, hdb,
            hc, hb, hw, hser, hm0, hm1, hm2, isSer_wrap, countInvoke, sleepDurs]
  refine ⟨hmain.1, hmain.2.1, hmain.2.2, ?_⟩
  intro i heq
  rw [hmain.1] at heq
  simp only [Outcome.ret.injEq, Option.some.injEq] at heq
  have h40 := hser i
  rw [← heq] at h40
  exact absurd h40 (by decide)

/-- Witness for C6: a work function that always reports the structured
serialization failure, at serializable isolation. -/
theorem C6_retries_exhausted_witness :
    (Transaction db0 opts0 happyEnvF workSerAlways).1 =
      .ret (some (.errorf "exceeded max retries")) ∧
    countInvoke (Transaction db0 opts0 happyEnvF workSerAlways).2.1 = 3 ∧
    sleepDurs (Transaction db0 opts0 happyEnvF workSerAlways).2.1 = [150, 300, 600] :=
  ⟨(C6_retries_exhausted db0 opts0 happyEnvF workSerAlways (fun _ => serErr)
      (Or.inr rfl) rfl (fun _ => rfl) (fun _ => rfl) (fun _ => rfl)
      (fun _ => serErr_isSer)).1,
   (C6_retries_exhausted db0 opts0 happyEnvF workSerAlways (fun _ => serErr)
      (Or.inr rfl) rfl (fun _ => rfl) (fun _ => rfl) (fun _ => rfl)
      (fun _ => serErr_isSer)).2.1,
   (C6_retries_exhausted db0 opts0 happyEnvF workSerAlways (fun _ => serErr)
      (Or.inr rfl) rfl (fun _ => rfl) (fun _ => rfl) (fun _ => rfl)
      (fun _ => serErr_isSer)).2.2.1⟩

/-- C8 evaluated at its failing input (pool-bound handle, fault-free
driver, work returning a business error unrelated to serialization):
because `if err := f(dbtx)` shadows the function-scope `err` the
deferred closure consults, the code performs zero rollbacks and
commits the transaction of the failed unit of work; the zero-retries
part and the wrapped, chain-reachable original error match the
claim. -/
theorem C8_work_error_commits :
    (Transaction db0 opts0 happyEnvF fun _ => .fail bizErr).1 =
      .ret (some (.wrap "call f(): " bizErr)) ∧
    countRollback (Transaction db0 opts0 happyEnvF fun _ => .fail bizErr).2.1 = 0 ∧
    countCommit (Transaction db0 opts0 happyEnvF fun _ => .fail bizErr).2.1 = 1 ∧
    countInvoke (Transaction db0 opts0 happyEnvF fun _ => .fail bizErr).2.1 = 1 ∧
    sleepDurs (Transaction db0 opts0 happyEnvF fun _ => .fail bizErr).2.1 = [] ∧
    bizErr ∈ errChain (.wrap "call f(): " bizErr) := by decide

/-- C10: `Transaction` returns the caller's handle exactly as it was
given (all four fields unchanged), on every input, because every work
invocation receives a freshly constructed transaction-scoped handle —
one carrying the same pool, the requested options, and an active
transaction and bound connection — which is never the caller's
handle. -/
theorem C10_caller_handle_unchanged (db : DB) (opts : TxOptions)
    (env : Nat → AttemptEnv) (w : Nat → WorkOutcome) :
    (Transaction db opts env w).2.2 = db ∧
    ∀ h : DB, Event.invokeWork h ∈ (Transaction db opts env w).2.1 →
      h.db = db.db ∧ h.txOptions = opts ∧ h.tx.isSome = true ∧ h.conn.isSome = true ∧
      h ≠ db := by
  constructor
  · cases hcr : canRetry opts.isolation
    · have ht : Transaction db opts env w = transaction db opts (env 0) (w 0) := by
        simp [Transaction, hcr]
      rw [ht]; exact transaction_snd db opts (env 0) (w 0)
    · have ht : Transaction db opts env w = retryLoop opts env w db 0 3 150 := by
        simp [Transaction, hcr, transactionWithRetry]
      rw [ht]; exact retryLoop_snd opts env w 3 db 0 150
  · intro h hmem
    have key : db.tx = none ∧ ∃ j, h =
        { db := db.db, tx := some (env j).txId, conn := some (env j).connId,
          txOptions := opts } := by
      cases hcr : canRetry opts.isolation
      · have ht : Transaction db opts env w = transaction db opts (env 0) (w 0) := by
          simp [Transaction, hcr]
        rw [ht] at hmem
        have hinv := transaction_invoke db opts (env 0) (w 0) h hmem
        exact ⟨hinv.1, 0, hinv.2⟩
      · have ht : Transaction db opts env w = retryLoop opts env w db 0 3 150 := by
          simp [Transaction, hcr, transactionWithRetry]
        rw [ht] at hmem
        exact retryLoop_invoke opts env w 3 db 0 150 h hmem
    rcases key with ⟨htx, j, heq⟩
    subst heq
    refine ⟨rfl, rfl, rfl, rfl, ?_⟩
    intro hbad
    rw [← hbad] at htx
    simp at htx

/-- Witness for C10: the caller's pool-bound handle comes back
unchanged from a committed transaction, and the handle the work
function received is the fresh transaction-scoped one, distinct from
the caller's. -/
theorem C10_caller_handle_unchanged_witness :
    (Transaction db0 opts0 happyEnvF workOkF).2.2 = db0 ∧
    ({ db := 7, tx := some 2, conn := some 1, txOptions := opts0 } : DB) ≠ db0 :=
  ⟨(C10_caller_handle_unchanged db0 opts0 happyEnvF workOkF).1,
   ((C10_caller_handle_unchanged db0 opts0 happyEnvF workOkF).2
      { db := 7, tx := some 2, conn := some 1, txOptions := opts0 }
      (by decide)).2.2.2.2⟩

end DatabaseGo
